import Mathlib

/-!
# Verification of the slot-booking conflict and availability engine

Shallow embedding of the booking engine of the Parking-Slot-Booking-System
repository (src/app.py and src/database/models.py).

Times (datetime values) are modelled as integers measured in hours, so that
the Python expression start_time + timedelta(hours=duration) becomes
start + duration.  Monetary values (Python floats holding exact decimal
inputs) are modelled as rationals.  The SQLAlchemy tables become lists of
records inside an explicit ParkingState; each Flask handler becomes a pure
function from a state (plus the request parameters and the current time) to
a result together with the next state.
-/

namespace Parking

/-- Row of the users table (database/models.py, class User): the fields the
booking engine reads or writes (id, is_admin, booking_count). -/
structure User where
  id : Nat
  isAdmin : Bool
  bookingCount : Nat
  deriving DecidableEq

/-- Row of the parking_slots table (database/models.py, class ParkingSlot):
identifier, slot number string, grid position, and the stored legacy
is_occupied flag. -/
structure ParkingSlot where
  id : Nat
  slotNumber : String
  row : Int
  column : Int
  isOccupied : Bool
  deriving DecidableEq

/-- Row of the bookings table (database/models.py, class Booking). -/
structure Booking where
  id : Nat
  userId : Nat
  slotId : Nat
  vehicleNumber : String
  startTime : Int
  endTime : Int
  durationHours : Int
  hourlyRate : ℚ
  totalPrice : ℚ
  status : String
  cancelled : Bool
  deriving DecidableEq

/-- Database state seen by the booking engine: the three tables plus the
autoincrement counter for booking ids. -/
structure ParkingState where
  slots : List ParkingSlot
  users : List User
  bookings : List Booking
  nextBookingId : Nat
  deriving DecidableEq

/-- Filter of the overlap query inside is_slot_available (app.py lines
130-135): same slot, not cancelled, Booking.start_time < end_time and
Booking.end_time > start_time. -/
def conflictsWith (slotId : Nat) (startTime endTime : Int) (b : Booking) : Bool :=
  b.slotId == slotId && !b.cancelled &&
    decide (b.startTime < endTime) && decide (b.endTime > startTime)

/-- Function is_slot_available(slot_db_id, start_time, end_time) of app.py
(lines 127-137): true iff no overlapping active booking exists. -/
def is_slot_available (bookings : List Booking) (slotId : Nat)
    (startTime endTime : Int) : Bool :=
  !(bookings.any (conflictsWith slotId startTime endTime))

/-- Per-booking occupancy filter used by get_slots_data (app.py 86-93),
level_dashboard (app.py 352-359), ParkingLot.get_available_slots and
ParkingLevel.get_available_count (models.py 119-124 and 155-160): not
cancelled, start_time <= now and end_time > now. -/
def activeAt (slotId : Nat) (now : Int) (b : Booking) : Bool :=
  b.slotId == slotId && !b.cancelled &&
    decide (b.startTime ≤ now) && decide (b.endTime > now)

/-- Derived occupancy of a slot at an instant: the test that active_booking
is not None in get_slots_data (app.py 86-93). -/
def current_occupancy (bookings : List Booking) (slotId : Nat) (now : Int) : Bool :=
  bookings.any (activeAt slotId now)

/-- One entry of the list built by get_slots_data (app.py 95-102); the
distance entry comes from the external recommender and is out of scope. -/
structure SlotData where
  id : String
  dbId : Nat
  row : Int
  column : Int
  occupied : Bool
  deriving DecidableEq

/-- Function get_slots_data of app.py (lines 74-104): for each slot, derived
occupancy at the current instant computed from the bookings table. -/
def get_slots_data (st : ParkingState) (now : Int) : List SlotData :=
  st.slots.map (fun s =>
    { id := s.slotNumber
      dbId := s.id
      row := s.row
      column := s.column
      occupied := current_occupancy st.bookings s.id now })

/-- Property Booking.is_active of models.py (lines 225-231): status equals
active, start_time <= now <= end_time (inclusive upper bound) and not
cancelled. -/
def Booking.is_active (b : Booking) (now : Int) : Bool :=
  b.status == "active" && decide (b.startTime ≤ now) &&
    decide (now ≤ b.endTime) && !b.cancelled

/-- Outcome of the book_slot POST handler (app.py 433-530). -/
inductive BookResult where
  /-- Flash message: Invalid slot selected — slot number not found (app.py 439-442). -/
  | invalidSlot
  /-- Flash message: Invalid date/time format — strptime failed (app.py 476-480). -/
  | invalidFormat
  /-- Flash message: Cannot book for past date/time (app.py 484-487). -/
  | pastStart
  /-- Flash message: This slot is already booked for the selected time (app.py 489-492). -/
  | unavailable
  /-- Redirect to the confirmation page for the new booking id (app.py 530). -/
  | booked (bookingId : Nat)
  deriving DecidableEq

/-- Booking record constructed on success (app.py 497-507):
end_time = start_time + timedelta(hours=duration),
total_price = hourly_rate * duration, status set to active, and cancelled
left at its column default False (models.py 219). -/
def newBooking (st : ParkingState) (userId slotId : Nat) (vehicle : String)
    (start duration : Int) (rate : ℚ) : Booking :=
  { id := st.nextBookingId
    userId := userId
    slotId := slotId
    vehicleNumber := vehicle
    startTime := start
    endTime := start + duration
    durationHours := duration
    hourlyRate := rate
    totalPrice := rate * (duration : ℚ)
    status := "active"
    cancelled := false }

/-- POST branch of the book_slot handler (app.py 433-530).  startParse is
the result of datetime.strptime on the raw start-time string: none when the
try/except caught a parse failure.  rate is the externally supplied hourly
rate from the pricing collaborator.  On success the booking row is added and
the booking_count of the requester is incremented; the slots table is
untouched. -/
def book_slot (st : ParkingState) (now : Int) (userId : Nat)
    (slotNumber vehicle : String) (startParse : Option Int) (duration : Int)
    (rate : ℚ) : BookResult × ParkingState :=
  match st.slots.find? (fun s => s.slotNumber == slotNumber) with
  | none => (BookResult.invalidSlot, st)
  | some slotDb =>
    match startParse with
    | none => (BookResult.invalidFormat, st)
    | some start =>
      if start < now then (BookResult.pastStart, st)
      else if is_slot_available st.bookings slotDb.id start (start + duration) then
        (BookResult.booked st.nextBookingId,
          { st with
              bookings :=
                st.bookings ++ [newBooking st userId slotDb.id vehicle start duration rate]
              nextBookingId := st.nextBookingId + 1
              users := st.users.map (fun u =>
                if u.id == userId then { u with bookingCount := u.bookingCount + 1 }
                else u) })
      else (BookResult.unavailable, st)

/-- Outcome of the cancel_booking handler (app.py 615-647). -/
inductive CancelResult where
  /-- The call get_or_404 aborted: no such booking (app.py 619). -/
  | notFound
  /-- Flash message: Unauthorized action — actor neither owner nor admin (app.py 622-624). -/
  | unauthorized
  /-- Flash message: Booking already cancelled — early return, no state change (app.py 626-629). -/
  | alreadyCancelled
  /-- Flash message: Booking cancelled successfully (app.py 642). -/
  | cancelledOk
  deriving DecidableEq

/-- Flash category attached to each cancel_booking outcome in the source;
notFound is an HTTP 404 abort, recorded here as the string 404. -/
def cancelFlashCategory : CancelResult → String
  | CancelResult.notFound => "404"
  | CancelResult.unauthorized => "error"
  | CancelResult.alreadyCancelled => "info"
  | CancelResult.cancelledOk => "success"

/-- Per-row update of the cancel transition (app.py 631-633): the targeted
booking gets cancelled = True and status set to cancelled together; every
other row is untouched.  The method Booking.cancel of models.py (233-240)
performs the same paired field update. -/
def cancelUpdate (bookingId : Nat) (b : Booking) : Booking :=
  if b.id == bookingId then { b with cancelled := true, status := "cancelled" } else b

/-- Slot update of the cancel transition (app.py 635-638): the slot of the
booking, when found, gets is_occupied = False. -/
def freeSlotUpdate (slotId : Nat) (s : ParkingSlot) : ParkingSlot :=
  if s.id == slotId then { s with isOccupied := false } else s

/-- Handler cancel_booking (app.py 615-647): authorization check (owner or
admin), idempotent early return when already cancelled, otherwise set both
status fields and clear the stored flag of the slot. -/
def cancel_booking (st : ParkingState) (actorId : Nat) (actorIsAdmin : Bool)
    (bookingId : Nat) : CancelResult × ParkingState :=
  match st.bookings.find? (fun b => b.id == bookingId) with
  | none => (CancelResult.notFound, st)
  | some booking =>
    if booking.userId ≠ actorId ∧ actorIsAdmin = false then
      (CancelResult.unauthorized, st)
    else if booking.cancelled then (CancelResult.alreadyCancelled, st)
    else
      (CancelResult.cancelledOk,
        { st with
            bookings := st.bookings.map (cancelUpdate bookingId)
            slots := st.slots.map (freeSlotUpdate booking.slotId) })

/-- One engine operation: a booking-create request or a cancel request, with
all request parameters and the current time of the request. -/
inductive Op where
  | book (now : Int) (userId : Nat) (slotNumber vehicle : String)
      (startParse : Option Int) (duration : Int) (rate : ℚ)
  | cancel (actorId : Nat) (actorIsAdmin : Bool) (bookingId : Nat)

/-- State transition of one operation (discarding the HTTP response). -/
def applyOp (st : ParkingState) : Op → ParkingState
  | Op.book now userId sn v sp d r => (book_slot st now userId sn v sp d r).2
  | Op.cancel a adm bid => (cancel_booking st a adm bid).2

/-- Run a sequence of engine operations from a state. -/
def runOps (st : ParkingState) : List Op → ParkingState
  | [] => st
  | op :: ops => runOps (applyOp st op) ops

/-- Half-open non-overlap of two booking rows, guarded the way the
no-double-booking invariant states it: relevant only when both rows are on
the same slot and neither is cancelled. -/
def NoOverlap (b1 b2 : Booking) : Prop :=
  b1.slotId = b2.slotId → b1.cancelled = false → b2.cancelled = false →
    b2.endTime ≤ b1.startTime ∨ b1.endTime ≤ b2.startTime

/-- Status-field consistency of section 3 of the spec: a cancelled row always
carries the status string cancelled. -/
def StatusConsistent (st : ParkingState) : Prop :=
  ∀ b ∈ st.bookings, b.cancelled = true → b.status = "cancelled"

/-! ## Concrete fixtures used by witnesses and counterexamples -/

/-- A concrete slot row. -/
def slotA : ParkingSlot :=
  { id := 1, slotNumber := "A_1", row := 0, column := 0, isOccupied := false }

/-- A concrete non-admin user row. -/
def userU : User := { id := 1, isAdmin := false, bookingCount := 0 }

/-- A concrete initial state with no reservations. -/
def st0 : ParkingState :=
  { slots := [slotA], users := [userU], bookings := [], nextBookingId := 1 }

/-- A concrete active booking on slot 1 over the interval from 10 to 12. -/
def bookingB : Booking :=
  { id := 1, userId := 1, slotId := 1, vehicleNumber := "KA-01", startTime := 10
    endTime := 12, durationHours := 2, hourlyRate := 2, totalPrice := 4
    status := "active", cancelled := false }

/-- A concrete booking that is already cancelled. -/
def bookingC : Booking :=
  { id := 1, userId := 1, slotId := 1, vehicleNumber := "KA-01", startTime := 10
    endTime := 12, durationHours := 2, hourlyRate := 2, totalPrice := 4
    status := "cancelled", cancelled := true }

/-- A concrete state holding the active booking. -/
def stB : ParkingState :=
  { slots := [slotA], users := [userU], bookings := [bookingB], nextBookingId := 2 }

/-- A concrete state holding the cancelled booking. -/
def stC : ParkingState :=
  { slots := [slotA], users := [userU], bookings := [bookingC], nextBookingId := 2 }

/-- A concrete operation sequence: two back-to-back bookings on the same slot. -/
def opsTwo : List Op :=
  [Op.book 0 1 "A_1" "KA-01" (some 10) 2 2, Op.book 0 1 "A_1" "KB-02" (some 12) 2 2]

/-- A concrete operation sequence: one booking followed by its cancellation. -/
def opsBookCancel : List Op :=
  [Op.book 0 1 "A_1" "KA-01" (some 10) 2 2, Op.cancel 1 false 1]



/-- C1: For every slot and every requested half-open interval, the
availability check is_slot_available returns false if and only if some
reservation on that slot with cancelled = false satisfies s < end and
e > start; it returns true otherwise, including on an empty reservation set
and for exactly adjacent reservations (e = start or s = end), so that
back-to-back bookings do not conflict. -/
theorem C1_is_slot_available_spec (bookings : List Booking) (slotId : Nat)
    (startTime endTime : Int) :
    (is_slot_available bookings slotId startTime endTime = false ↔
      ∃ b ∈ bookings, b.slotId = slotId ∧ b.cancelled = false ∧
        b.startTime < endTime ∧ b.endTime > startTime) ∧
    is_slot_available [] slotId startTime endTime = true ∧
    (∀ b : Booking, b.endTime = startTime →
      is_slot_available [b] b.slotId startTime endTime = true) ∧
    (∀ b : Booking, b.startTime = endTime →
      is_slot_available [b] b.slotId startTime endTime = true) := by
  refine ⟨?_, rfl, ?_, ?_⟩
  · simp only [is_slot_available, Bool.not_eq_false', List.any_eq_true, conflictsWith,
      Bool.and_eq_true, beq_iff_eq, Bool.not_eq_true', decide_eq_true_eq, gt_iff_lt]
    constructor
    · rintro ⟨b, hb, ⟨⟨⟨h1, h2⟩, h3⟩, h4⟩⟩
      exact ⟨b, hb, h1, h2, h3, h4⟩
    · rintro ⟨b, hb, h1, h2, h3, h4⟩
      exact ⟨b, hb, ⟨⟨⟨h1, h2⟩, h3⟩, h4⟩⟩
  · intro b hb
    simp [is_slot_available, conflictsWith, hb]
  · intro b hb
    simp [is_slot_available, conflictsWith, hb]

/-- C1 witness: a reservation ending exactly at the requested start does not
conflict (back-to-back bookings are legal). -/
theorem C1_is_slot_available_spec_witness :
    is_slot_available [bookingB] bookingB.slotId 12 14 = true :=
  (C1_is_slot_available_spec [bookingB] bookingB.slotId 12 14).2.2.1 bookingB rfl

/-- C4: The derived occupancy of a slot at an instant is true iff some
reservation on the slot with cancelled = false has start_time <= t < end_time;
it is false at exactly the end time of the reservation, and get_slots_data
does not depend on the stored is_occupied flag of any slot. -/
theorem C4_current_occupancy_spec (bookings : List Booking) (slotId : Nat)
    (now : Int) :
    (current_occupancy bookings slotId now = true ↔
      ∃ b ∈ bookings, b.slotId = slotId ∧ b.cancelled = false ∧
        b.startTime ≤ now ∧ now < b.endTime) ∧
    (∀ b : Booking, current_occupancy [b] b.slotId b.endTime = false) ∧
    (∀ (st : ParkingState) (g : ParkingSlot → Bool),
      get_slots_data
          { st with slots := st.slots.map (fun s => { s with isOccupied := g s }) } now
        = get_slots_data st now) := by
  refine ⟨?_, ?_, ?_⟩
  · simp only [current_occupancy, List.any_eq_true, activeAt, Bool.and_eq_true,
      beq_iff_eq, Bool.not_eq_true', decide_eq_true_eq, gt_iff_lt]
    constructor
    · rintro ⟨b, hb, ⟨⟨⟨h1, h2⟩, h3⟩, h4⟩⟩
      exact ⟨b, hb, h1, h2, h3, h4⟩
    · rintro ⟨b, hb, h1, h2, h3, h4⟩
      exact ⟨b, hb, ⟨⟨⟨h1, h2⟩, h3⟩, h4⟩⟩
  · intro b
    simp [current_occupancy, activeAt]
  · intro st g
    simp only [get_slots_data, List.map_map]
    exact List.map_congr_left (fun s _ => rfl)

/-- C4 witness: occupancy of the concrete booking is false at exactly its
end time. -/
theorem C4_current_occupancy_spec_witness :
    current_occupancy [bookingB] bookingB.slotId bookingB.endTime = false :=
  (C4_current_occupancy_spec [bookingB] bookingB.slotId 0).2.1 bookingB

/-- C10: For a reservation with status active and cancelled = false, the
property Booking.is_active tests containment with an inclusive upper bound
(start_time <= now <= end_time): it is true when now equals end_time exactly,
unlike the half-open occupancy query, which is false at that instant. -/
theorem C10_is_active_inclusive_bound (b : Booking) (now : Int)
    (hs : b.status = "active") (hc : b.cancelled = false) :
    (Booking.is_active b now = true ↔ b.startTime ≤ now ∧ now ≤ b.endTime) ∧
    (b.startTime ≤ b.endTime → Booking.is_active b b.endTime = true) ∧
    current_occupancy [b] b.slotId b.endTime = false := by
  refine ⟨?_, ?_, ?_⟩
  · simp [Booking.is_active, hs, hc, and_assoc]
  · intro h
    simp [Booking.is_active, hs, hc, h]
  · simp [current_occupancy, activeAt]

/-- C10 witness: the concrete active booking is reported active at exactly
its end time by Booking.is_active. -/
theorem C10_is_active_inclusive_bound_witness :
    Booking.is_active bookingB bookingB.endTime = true :=
  (C10_is_active_inclusive_bound bookingB 0 rfl rfl).2.1 (by decide)

/-- C3 counterexample: a booking-create request with duration 0 (so that
end_time = start_time, a non-positive duration) on an empty state with a
future start is NOT rejected: it succeeds and a reservation with
end_time = start_time is persisted, contradicting the claim that such a
request fails with an InvalidInterval condition and is never persisted. -/
theorem C3_nonpositive_duration_stored :
    (book_slot st0 0 1 "A_1" "KA-01" (some 5) 0 2).1 = BookResult.booked 1 ∧
    ((book_slot st0 0 1 "A_1" "KA-01" (some 5) 0 2).2).bookings.length = 1 ∧
    ∀ b ∈ ((book_slot st0 0 1 "A_1" "KA-01" (some 5) 0 2).2).bookings,
      b.endTime = b.startTime := by
  refine ⟨by decide, by decide, by decide⟩

/-- C3 amended: a malformed start-time string is rejected (invalid-format
outcome when the slot exists, invalid-slot otherwise) and nothing is
persisted; but a non-positive duration (end_time <= start_time) is NOT
checked: a duration-0 request that passes the past-time and availability
checks is persisted with end_time = start_time. -/
theorem C3_malformed_rejected_before_persisting (st : ParkingState) (now : Int)
    (userId : Nat) (slotNumber vehicle : String) (duration : Int) (rate : ℚ) :
    (book_slot st now userId slotNumber vehicle none duration rate).2 = st ∧
    ((book_slot st now userId slotNumber vehicle none duration rate).1 = BookResult.invalidSlot ∨
     (book_slot st now userId slotNumber vehicle none duration rate).1 = BookResult.invalidFormat) ∧
    (∀ slotDb : ParkingSlot,
      st.slots.find? (fun s => s.slotNumber == slotNumber) = some slotDb →
        book_slot st now userId slotNumber vehicle none duration rate
          = (BookResult.invalidFormat, st)) ∧
    (book_slot st0 0 1 "A_1" "KA-01" (some 5) 0 2).1 = BookResult.booked 1 := by
  refine ⟨?_, ?_, ?_, by decide⟩
  · unfold book_slot; split <;> rfl
  · unfold book_slot; split
    · left; rfl
    · right; rfl
  · intro slotDb hfind
    simp only [book_slot, hfind]

/-- C3 amended witness: the malformed-parse rejection at the concrete state. -/
theorem C3_malformed_rejected_before_persisting_witness :
    book_slot st0 0 1 "A_1" "KA-01" none 2 2 = (BookResult.invalidFormat, st0) :=
  (C3_malformed_rejected_before_persisting st0 0 1 "A_1" "KA-01" 2 2).2.2.1 slotA rfl

/-- C6: cancelling an already-cancelled reservation (by an authorized actor)
is an idempotent no-op success: the whole state — reservation, slot and
counters — is returned unchanged, and the outcome is the AlreadyCancelled
result whose flash category is info, not error. -/
theorem C6_idempotent_cancel (st : ParkingState) (actorId : Nat)
    (actorIsAdmin : Bool) (bookingId : Nat) (b : Booking)
    (hfind : st.bookings.find? (fun x => x.id == bookingId) = some b)
    (hauth : b.userId = actorId ∨ actorIsAdmin = true)
    (hc : b.cancelled = true) :
    cancel_booking st actorId actorIsAdmin bookingId
      = (CancelResult.alreadyCancelled, st) ∧
    cancelFlashCategory CancelResult.alreadyCancelled = "info" ∧
    cancelFlashCategory CancelResult.alreadyCancelled ≠ "error" := by
  refine ⟨?_, rfl, by decide⟩
  have hna : ¬ (b.userId ≠ actorId ∧ actorIsAdmin = false) := by
    rintro ⟨h1, h2⟩
    rcases hauth with h | h
    · exact h1 h
    · rw [h] at h2; cases h2
  simp only [cancel_booking, hfind, if_neg hna, if_pos hc]

/-- C6 witness: re-cancelling the concrete cancelled booking is a no-op. -/
theorem C6_idempotent_cancel_witness :
    cancel_booking stC 1 false 1 = (CancelResult.alreadyCancelled, stC) :=
  (C6_idempotent_cancel stC 1 false 1 bookingC rfl (Or.inl rfl) rfl).1

/-- C7: a booking-create request whose parsed start time is strictly earlier
than the current time fails with the past-start outcome and leaves the state
unchanged; a request with start time at or after now never produces that
outcome. -/
theorem C7_past_start_policy (st : ParkingState) (now : Int) (userId : Nat)
    (slotNumber vehicle : String) (start duration : Int) (rate : ℚ)
    (slotDb : ParkingSlot)
    (hfind : st.slots.find? (fun s => s.slotNumber == slotNumber) = some slotDb) :
    (start < now →
      book_slot st now userId slotNumber vehicle (some start) duration rate
        = (BookResult.pastStart, st)) ∧
    (now ≤ start →
      (book_slot st now userId slotNumber vehicle (some start) duration rate).1
        ≠ BookResult.pastStart) := by
  constructor
  · intro h
    simp only [book_slot, hfind, if_pos h]
  · intro h
    simp only [book_slot, hfind, if_neg (not_lt.mpr h)]
    split <;> simp

/-- C7 witness: at the concrete state, a start one hour in the past is
rejected with the past-start outcome and no state change. -/
theorem C7_past_start_policy_witness :
    book_slot st0 5 1 "A_1" "KA-01" (some 4) 2 2 = (BookResult.pastStart, st0) :=
  (C7_past_start_policy st0 5 1 "A_1" "KA-01" 4 2 2 slotA rfl).1 (by decide)


/-- C8: a successfully created reservation is persisted with
hourly_rate = rate and total_price = rate * duration_hours as supplied at
creation time; booking creation only appends (never rewrites existing rows,
so a later creation under a changed pricing input leaves old snapshots
intact), and cancellation preserves the hourly_rate and total_price of every
stored reservation. -/
theorem C8_price_snapshot_stability (st : ParkingState) (now : Int)
    (userId : Nat) (slotNumber vehicle : String) (startParse : Option Int)
    (duration : Int) (rate : ℚ) (actorId : Nat) (actorIsAdmin : Bool)
    (bookingId : Nat) :
    (∀ b ∈ ((book_slot st now userId slotNumber vehicle startParse duration rate).2).bookings,
       b ∈ st.bookings ∨
         (b.hourlyRate = rate ∧ b.durationHours = duration ∧
          b.totalPrice = rate * (duration : ℚ))) ∧
    (∃ tail, ((book_slot st now userId slotNumber vehicle startParse duration rate).2).bookings
        = st.bookings ++ tail) ∧
    (((cancel_booking st actorId actorIsAdmin bookingId).2).bookings.map
        (fun b => (b.id, b.hourlyRate, b.totalPrice))
      = st.bookings.map (fun b => (b.id, b.hourlyRate, b.totalPrice))) := by
  refine ⟨?_, ?_, ?_⟩
  · unfold book_slot
    split
    · exact fun b hb => Or.inl hb
    · split
      · exact fun b hb => Or.inl hb
      · split
        · exact fun b hb => Or.inl hb
        · split
          · intro b hb
            rcases List.mem_append.mp hb with h | h
            · exact Or.inl h
            · rw [List.mem_singleton] at h
              subst h
              exact Or.inr ⟨rfl, rfl, rfl⟩
          · exact fun b hb => Or.inl hb
  · unfold book_slot
    split
    · exact ⟨[], (List.append_nil _).symm⟩
    · split
      · exact ⟨[], (List.append_nil _).symm⟩
      · split
        · exact ⟨[], (List.append_nil _).symm⟩
        · split
          · exact ⟨_, rfl⟩
          · exact ⟨[], (List.append_nil _).symm⟩
  · unfold cancel_booking
    split
    · rfl
    · split
      · rfl
      · split
        · rfl
        · simp only [List.map_map]
          refine List.map_congr_left (fun b _ => ?_)
          simp only [Function.comp_apply, cancelUpdate]
          split <;> rfl

/-- C8 witness: the reservation created at the concrete state carries the
supplied rate and the product price. -/
theorem C8_price_snapshot_stability_witness :
    ((book_slot st0 0 1 "A_1" "KA-01" (some 10) 2 3).2).bookings.get
        ⟨0, by decide⟩ ∈ st0.bookings ∨
      ((((book_slot st0 0 1 "A_1" "KA-01" (some 10) 2 3).2).bookings.get
            ⟨0, by decide⟩).hourlyRate = 3 ∧
       (((book_slot st0 0 1 "A_1" "KA-01" (some 10) 2 3).2).bookings.get
            ⟨0, by decide⟩).durationHours = 2 ∧
       (((book_slot st0 0 1 "A_1" "KA-01" (some 10) 2 3).2).bookings.get
            ⟨0, by decide⟩).totalPrice = 3 * ((2 : Int) : ℚ)) :=
  (C8_price_snapshot_stability st0 0 1 "A_1" "KA-01" (some 10) 2 3 1 false 1).1
    _ (List.get_mem _ 0 (by decide))

/-- C9: booking creation leaves the stored is_occupied flag of every slot
unchanged (the slots table is untouched); cancellation is the only engine
operation that writes the flag, and only ever writes false; consequently a
reachable state exists in which the stored flag disagrees with the
reservation-derived occupancy. -/
theorem C9_stored_flag_frame (st : ParkingState) (now : Int) (userId : Nat)
    (slotNumber vehicle : String) (startParse : Option Int) (duration : Int)
    (rate : ℚ) (actorId : Nat) (actorIsAdmin : Bool) (bookingId : Nat) :
    ((book_slot st now userId slotNumber vehicle startParse duration rate).2).slots
      = st.slots ∧
    (∀ s2 ∈ ((cancel_booking st actorId actorIsAdmin bookingId).2).slots,
       ∃ s ∈ st.slots, s2 = s ∨ s2 = { s with isOccupied := false }) ∧
    (∃ (stW : ParkingState) (ops : List Op) (t : Int) (s : ParkingSlot),
       stW.bookings = [] ∧ s ∈ (runOps stW ops).slots ∧
       s.isOccupied ≠ current_occupancy (runOps stW ops).bookings s.id t) := by
  refine ⟨?_, ?_, ?_⟩
  · unfold book_slot
    split
    · rfl
    · split
      · rfl
      · split
        · rfl
        · split <;> rfl
  · unfold cancel_booking
    split
    · exact fun s2 hs2 => ⟨s2, hs2, Or.inl rfl⟩
    · split
      · exact fun s2 hs2 => ⟨s2, hs2, Or.inl rfl⟩
      · split
        · exact fun s2 hs2 => ⟨s2, hs2, Or.inl rfl⟩
        · intro s2 hs2
          rw [List.mem_map] at hs2
          rcases hs2 with ⟨s, hs, rfl⟩
          refine ⟨s, hs, ?_⟩
          simp only [freeSlotUpdate]
          split
          · exact Or.inr rfl
          · exact Or.inl rfl
  · exact ⟨st0, [Op.book 0 1 "A_1" "KA-01" (some 0) 2 2], 0, slotA, rfl,
      by decide, by decide⟩

/-- C9 witness: after cancelling the concrete booking, every slot row is
either unchanged or has its stored flag cleared. -/
theorem C9_stored_flag_frame_witness :
    ∃ s ∈ stB.slots,
      ((cancel_booking stB 1 false 1).2).slots.get ⟨0, by decide⟩ = s ∨
      ((cancel_booking stB 1 false 1).2).slots.get ⟨0, by decide⟩
        = { s with isOccupied := false } :=
  (C9_stored_flag_frame stB 0 1 "A_1" "KA-01" none 0 0 1 false 1).2.1
    _ (List.get_mem _ 0 (by decide))


/-- A passing availability check yields half-open non-overlap of the
candidate interval with every non-cancelled row of the slot. -/
theorem noOverlap_of_available (bookings : List Booking) (slotId : Nat)
    (start endT : Int) (h : is_slot_available bookings slotId start endT = true)
    (a : Booking) (ha : a ∈ bookings) (hslot : a.slotId = slotId)
    (hca : a.cancelled = false) :
    endT ≤ a.startTime ∨ a.endTime ≤ start := by
  unfold is_slot_available at h
  rw [Bool.not_eq_true', List.any_eq_false] at h
  by_contra hcon
  push_neg at hcon
  obtain ⟨h1, h2⟩ := hcon
  refine h a ha ?_
  simp only [conflictsWith, Bool.and_eq_true, beq_iff_eq, Bool.not_eq_true',
    decide_eq_true_eq, gt_iff_lt]
  exact ⟨⟨⟨hslot, hca⟩, by omega⟩, by omega⟩

/-- Booking creation preserves pairwise non-overlap: the availability gate
guarantees the appended row conflicts with no earlier non-cancelled row. -/
theorem book_slot_pairwise (st : ParkingState)
    (h : st.bookings.Pairwise NoOverlap) (now : Int) (userId : Nat)
    (slotNumber vehicle : String) (startParse : Option Int) (duration : Int)
    (rate : ℚ) :
    ((book_slot st now userId slotNumber vehicle startParse duration
        rate).2).bookings.Pairwise NoOverlap := by
  unfold book_slot
  split
  · exact h
  · split
    · exact h
    · split
      · exact h
      · split
        · rename_i havail
          rw [List.pairwise_append]
          refine ⟨h, List.pairwise_singleton _ _, ?_⟩
          intro a ha b hb
          rw [List.mem_singleton] at hb
          subst hb
          intro hslot hca hcb
          have hno := noOverlap_of_available st.bookings _ _ _ havail a ha
            (by simpa [newBooking] using hslot) hca
          simpa [newBooking] using hno
        · exact h

/-- The per-row cancel update preserves half-open non-overlap: it only sets
the cancelled flag (making the guard vacuous) and never touches times. -/
theorem cancelUpdate_noOverlap (bookingId : Nat) (b1 b2 : Booking)
    (h : NoOverlap b1 b2) :
    NoOverlap (cancelUpdate bookingId b1) (cancelUpdate bookingId b2) := by
  unfold NoOverlap at h ⊢
  unfold cancelUpdate
  split <;> split <;> intro hs hc1 hc2
  · exact Bool.noConfusion hc1
  · exact Bool.noConfusion hc1
  · exact Bool.noConfusion hc2
  · exact h hs hc1 hc2

/-- Cancellation preserves pairwise non-overlap. -/
theorem cancel_booking_pairwise (st : ParkingState)
    (h : st.bookings.Pairwise NoOverlap) (actorId : Nat) (actorIsAdmin : Bool)
    (bookingId : Nat) :
    ((cancel_booking st actorId actorIsAdmin
        bookingId).2).bookings.Pairwise NoOverlap := by
  unfold cancel_booking
  split
  · exact h
  · split
    · exact h
    · split
      · exact h
      · exact (List.pairwise_map).mpr
          (h.imp (fun hab => cancelUpdate_noOverlap bookingId _ _ hab))

/-- Pairwise non-overlap is preserved by every operation sequence. -/
theorem runOps_pairwise (ops : List Op) (st : ParkingState)
    (h : st.bookings.Pairwise NoOverlap) :
    ((runOps st ops).bookings).Pairwise NoOverlap := by
  induction ops generalizing st with
  | nil => exact h
  | cons op ops ih =>
    cases op with
    | book now userId sn v sp d r =>
      exact ih _ (book_slot_pairwise st h now userId sn v sp d r)
    | cancel a adm bid =>
      exact ih _ (cancel_booking_pairwise st h a adm bid)

/-- C2: starting from a state with no reservations, after every sequence of
booking-create and booking-cancel operations the non-cancelled reservations
of each slot are pairwise non-overlapping under the half-open rule: for rows
at two distinct positions on the same slot, both non-cancelled,
s1 >= e2 or s2 >= e1 (no double-booking). -/
theorem C2_no_double_booking (init : ParkingState) (hinit : init.bookings = [])
    (ops : List Op) :
    ((runOps init ops).bookings).Pairwise NoOverlap ∧
    ∀ (i j : Fin ((runOps init ops).bookings).length), i ≠ j →
      (((runOps init ops).bookings).get i).slotId
          = (((runOps init ops).bookings).get j).slotId →
      (((runOps init ops).bookings).get i).cancelled = false →
      (((runOps init ops).bookings).get j).cancelled = false →
      (((runOps init ops).bookings).get i).startTime
          ≥ (((runOps init ops).bookings).get j).endTime ∨
      (((runOps init ops).bookings).get j).startTime
          ≥ (((runOps init ops).bookings).get i).endTime := by
  have hp : ((runOps init ops).bookings).Pairwise NoOverlap :=
    runOps_pairwise ops init (by rw [hinit]; exact List.Pairwise.nil)
  refine ⟨hp, ?_⟩
  intro i j hij hs hc1 hc2
  rcases Nat.lt_trichotomy i.1 j.1 with hlt | heq | hgt
  · exact List.pairwise_iff_get.mp hp i j hlt hs hc1 hc2
  · exact absurd (Fin.ext heq) hij
  · exact ((List.pairwise_iff_get.mp hp j i hgt) hs.symm hc2 hc1).symm

/-- C2 witness: two back-to-back bookings on the same slot from the empty
state leave a pairwise non-overlapping reservation set. -/
theorem C2_no_double_booking_witness :
    ((runOps st0 opsTwo).bookings).Pairwise NoOverlap :=
  (C2_no_double_booking st0 rfl opsTwo).1

/-- Booking creation preserves status-field consistency: new rows carry
cancelled = false. -/
theorem book_slot_statusConsistent (st : ParkingState) (h : StatusConsistent st)
    (now : Int) (userId : Nat) (slotNumber vehicle : String)
    (startParse : Option Int) (duration : Int) (rate : ℚ) :
    StatusConsistent
      (book_slot st now userId slotNumber vehicle startParse duration rate).2 := by
  unfold book_slot
  split
  · exact h
  · split
    · exact h
    · split
      · exact h
      · split
        · unfold StatusConsistent
          intro b hb
          rcases List.mem_append.mp hb with hm | hm
          · exact h b hm
          · rw [List.mem_singleton] at hm
            subst hm
            intro hcb
            exact Bool.noConfusion hcb
        · exact h

/-- Cancellation preserves status-field consistency: the targeted row gets
both fields set together. -/
theorem cancel_booking_statusConsistent (st : ParkingState)
    (h : StatusConsistent st) (actorId : Nat) (actorIsAdmin : Bool)
    (bookingId : Nat) :
    StatusConsistent (cancel_booking st actorId actorIsAdmin bookingId).2 := by
  unfold cancel_booking
  split
  · exact h
  · split
    · exact h
    · split
      · exact h
      · unfold StatusConsistent
        intro b hb
        rw [List.mem_map] at hb
        rcases hb with ⟨c, hc, rfl⟩
        unfold cancelUpdate
        split
        · intro _; rfl
        · exact h c hc

/-- Status-field consistency is preserved by every operation sequence. -/
theorem runOps_statusConsistent (ops : List Op) (st : ParkingState)
    (h : StatusConsistent st) : StatusConsistent (runOps st ops) := by
  induction ops generalizing st with
  | nil => exact h
  | cons op ops ih =>
    cases op with
    | book now userId sn v sp d r =>
      exact ih _ (book_slot_statusConsistent st h now userId sn v sp d r)
    | cancel a adm bid =>
      exact ih _ (cancel_booking_statusConsistent st h a adm bid)

/-- C5: in every state reachable from a no-reservation state,
cancelled = true implies status = cancelled; and the cancel transition
updates the two fields together: each row it produces is either an untouched
old row or has both cancelled = true and status = cancelled. -/
theorem C5_status_fields_consistent (init : ParkingState)
    (hinit : init.bookings = []) (ops : List Op) :
    (∀ b ∈ (runOps init ops).bookings,
        b.cancelled = true → b.status = "cancelled") ∧
    (∀ (st : ParkingState) (actorId : Nat) (actorIsAdmin : Bool)
        (bookingId : Nat),
      ∀ c ∈ ((cancel_booking st actorId actorIsAdmin bookingId).2).bookings,
        c ∈ st.bookings ∨ (c.cancelled = true ∧ c.status = "cancelled")) := by
  constructor
  · exact runOps_statusConsistent ops init
      (by intro b hb; rw [hinit] at hb; exact absurd hb (List.not_mem_nil b))
  · intro st actorId adm bid
    unfold cancel_booking
    split
    · exact fun c hc => Or.inl hc
    · split
      · exact fun c hc => Or.inl hc
      · split
        · exact fun c hc => Or.inl hc
        · intro c hc
          rw [List.mem_map] at hc
          rcases hc with ⟨b, hb, rfl⟩
          unfold cancelUpdate
          split
          · exact Or.inr ⟨rfl, rfl⟩
          · exact Or.inl hb

/-- C5 witness: after booking and cancelling on the concrete state, the
stored row has status cancelled. -/
theorem C5_status_fields_consistent_witness :
    (((runOps st0 opsBookCancel).bookings).get ⟨0, by decide⟩).status
      = "cancelled" :=
  (C5_status_fields_consistent st0 rfl opsBookCancel).1 _
    (List.get_mem _ 0 (by decide)) (by decide)

end Parking
